import Mathlib

/-!
Shallow embedding of `src/ag.py`, a command-line LLM assistant, together with
theorems about its observable behavior: prompt assembly (`query_mode`),
the OCR adapter (`ocr`), the inference client (`get_client` / `call_deepseek`),
the response renderer (`print_response`), the chat loop (`chat_mode`) and the
argument dispatch in `main`.  Python values that may be `None` are modelled as
`Option String`; Python truthiness and `str()` interpolation are modelled
explicitly.
-/

/-- A chat message as the program builds it: a (role, content) pair. -/
abbrev Message := String × String

/-- The whitespace characters Python `str.strip()` removes (ASCII range). -/
def py_space (c : Char) : Bool :=
  c == ' ' || c == '\t' || c == '\n' || c == '\r' || c == '\x0b' || c == '\x0c'

/-- Drop leading whitespace from a character list. -/
def drop_space : List Char → List Char
  | [] => []
  | c :: rest => if py_space c then drop_space rest else c :: rest

/-- Python `str.strip()`: remove leading and trailing whitespace. -/
def py_strip (s : String) : String :=
  String.mk ((drop_space ((drop_space s.data).reverse)).reverse)

/-- Python `str.lower()` on one character (ASCII range). -/
def py_lower_char (c : Char) : Char :=
  if 'A' ≤ c && c ≤ 'Z' then Char.ofNat (c.toNat + 32) else c

/-- Python `str.lower()` (ASCII range). -/
def py_lower (s : String) : String :=
  String.mk (s.data.map py_lower_char)

/-- Python truthiness of a value that is either `None` or a string:
`None` and the empty string are falsy, every other string is truthy. -/
def pyTruthy : Option String → Bool
  | none => false
  | some s => !(s == "")

/-- Python f-string interpolation of a value that is either `None` or a
string: `None` renders as the literal text `None`. -/
def pyStr : Option String → String
  | none => "None"
  | some s => s

/-- `ocr` (src/ag.py lines 18-31).  The external engine call
`reader.readtext` is modelled by its outcome: `.ok texts` yields the
recognized fragments in detection order, `.error e` models an exception
raised inside the `try` block.  The result is the pair
(return value, stderr diagnostic): on success the newline-joined stripped
text and no diagnostic, on failure the Python return value `None` and the
diagnostic printed to the error stream. -/
def ocr_run : Except String (List String) → Option String × Option String
  | .ok texts => (some (py_strip (String.intercalate "\n" texts)), none)
  | .error e => (none, some ("OCR 错误: " ++ e))

/-- The API client object built by `get_client` on success. -/
structure Client where
  api_key : String
  base_url : String
deriving DecidableEq

/-- `get_client` (src/ag.py lines 33-38).  The environment variable
`DEEPSEEK_API_KEY` is the `Option String` argument (`none` = absent).
`if not api_key` is Python truthiness, so an absent or empty key yields
`sys.exit(1)` after printing to stderr, modelled as
`.error (exit code, stderr message)`. -/
def get_client (env : Option String) : Except (Nat × String) Client :=
  if pyTruthy env then
    .ok ⟨env.getD "", "https://api.deepseek.com"⟩
  else
    .error (1, "Failed to find API key.")

/-- The value of the `-s` (long form `--stream`) flag: argparse default `True` when the
flag is omitted, otherwise the raw argument string. -/
inductive StreamFlag
  | defaultTrue
  | given (s : String)
deriving DecidableEq

/-- Python truthiness of the `--stream` value: the boolean default `True`
is truthy, a string argument is truthy exactly when non-empty. -/
def stream_truthy : StreamFlag → Bool
  | .defaultTrue => true
  | .given s => !(s == "")

/-- The request that `client.chat.completions.create` would receive. -/
structure ApiRequest where
  messages : List Message
  model : String
  stream : StreamFlag
deriving DecidableEq

/-- `call_deepseek` (src/ag.py lines 40-47): first builds the client
(which exits the process when the credential is missing), then issues the
network request.  `.ok` carries the request that reaches the network;
`.error` carries the fatal (exit code, stderr diagnostic) and no request
is ever constructed. -/
def call_deepseek (env : Option String) (messages : List Message)
    (model : String) (stream : StreamFlag) : Except (Nat × String) ApiRequest :=
  match get_client env with
  | .error e => .error e
  | .ok _ => .ok ⟨messages, model, stream⟩

/-- The `delta` field of a streamed chunk choice; its `content` may be
`None`. -/
structure Delta where
  content : Option String
deriving DecidableEq

/-- One element of a streamed chunk's `choices` list. -/
structure StreamChoice where
  delta : Delta
deriving DecidableEq

/-- One streamed response chunk; its `choices` list may be empty. -/
structure Chunk where
  choices : List StreamChoice
deriving DecidableEq

/-- A response object: an iterable of chunks when the request streamed,
a single completion payload otherwise. -/
inductive ApiResponse
  | streamed (chunks : List Chunk)
  | single (content : String)
deriving DecidableEq

/-- One iteration of the accumulation loop in `print_response`
(src/ag.py lines 53-56): the chunk contributes its first choice's delta
content only when the choices list is non-empty and the content is truthy
(not `None` and not empty). -/
def stream_step (acc : String) (c : Chunk) : String :=
  match c.choices with
  | [] => acc
  | ch :: _ =>
    match ch.delta.content with
    | none => acc
    | some s => if s == "" then acc else acc ++ s

/-- The text content a chunk carries: its first choice's delta content,
the empty string when the choices list is empty or the content is `None`. -/
def chunk_text (c : Chunk) : String :=
  match c.choices with
  | [] => ""
  | ch :: _ =>
    match ch.delta.content with
    | none => ""
    | some s => s

/-- Concatenation of a list of strings in order. -/
def concat_all : List String → String
  | [] => ""
  | s :: rest => s ++ concat_all rest

/-- `print_response` (src/ag.py lines 49-65), reduced to its return value.
The branch is taken on the truthiness of the `stream` argument.  In the
streaming branch the chunks are folded with `stream_step` and the
accumulated text is returned; in the non-streaming branch the single
completion's content is returned.  A mismatch between the flag and the
response shape would raise at runtime in Python, modelled as `none`. -/
def print_response (response : ApiResponse) (stream : StreamFlag) : Option String :=
  if stream_truthy stream then
    match response with
    | .streamed chunks => some (chunks.foldl stream_step "")
    | .single _ => none
  else
    match response with
    | .single content => some content
    | .streamed _ => none

/-- The fixed instructional preamble `professional_prompt` of `query_mode`
(src/ag.py lines 77-83), byte for byte (including the trailing spaces
inside the triple-quoted literal). -/
def professional_prompt : String :=
  "\n    Please answer my question with your output formatted in strict Markdown syntax, ensuring \n    it\x27s directly compatible with Glow for display. Keep concise. Determine your language \n    according to my question. Please do not use bold or italian.\n    Try not use titles (e.g., #).\n    My question is:\n    "

/-- The prompt string `query_mode` sends (src/ag.py lines 68-85).
`contents` may be a string or Python `None` (the OCR failure value); the
code's guard is `contents != \x22\x22`, which holds for `None` as well as
for any non-empty string, and the f-string interpolates `None` as the
literal text `None`.  After the context wrapping (or its absence), the
fixed preamble `professional_prompt` is prepended unconditionally. -/
def query_mode_prompt (query : String) (contents : Option String) (image : Bool) : String :=
  let prompt :=
    if contents == some "" then
      query
    else
      if image then
        "This is ocr result of the image:\n\n" ++ pyStr contents ++ "\n\nQuestion:" ++ query
      else
        "Please answer the question based on this text:\n\n" ++ pyStr contents ++ "\n\nQuestion:" ++ query
  professional_prompt ++ prompt

/-- The message list `query_mode` passes to `call_deepseek`
(src/ag.py lines 91-94): a single user message holding the built prompt. -/
def query_mode_messages (query : String) (contents : Option String) (image : Bool) : List Message :=
  [("user", query_mode_prompt query contents image)]

/-- The system prompt of `chat_mode` (src/ag.py lines 98-100). -/
def system_prompt : String :=
  "Please give precise and crispy answers. Faster is better."

/-- The initial conversation history of `chat_mode` (src/ag.py line 106). -/
def init_messages : List Message := [("system", system_prompt)]

/-- The exit keywords of the chat loop (src/ag.py line 113). -/
def exit_words : List String := ["exit", "quit", "q"]

/-- What happened at the chat prompt: a line was read, or the read was
interrupted by `KeyboardInterrupt`. -/
inductive ChatEvent
  | line (s : String)
  | interrupt
deriving DecidableEq

/-- Outcome of the sending/rendering phase of a turn: a reply string, or
an exception carrying its message. -/
inductive ApiOutcome
  | ok (reply : String)
  | exn (msg : String)
deriving DecidableEq

/-- Observable result of one iteration of the chat loop body. -/
structure TurnResult where
  exited : Bool
  sentRequest : Bool
  messages : List Message
  errReported : Option String
  hintPrinted : Bool
deriving DecidableEq

/-- One iteration of the `while True` body of `chat_mode`
(src/ag.py lines 109-124).  A `KeyboardInterrupt` at the prompt is caught
and prints the hint.  Otherwise the read line is stripped; when its
lowercase form is an exit keyword the loop breaks before any request.
Otherwise the user message is appended to the history, the request is
made, and on success the assistant reply is appended too; an exception
during sending or rendering is caught and reported to stderr, leaving the
already-appended user message in the history. -/
def chat_turn (msgs : List Message) (ev : ChatEvent) (api : ApiOutcome) : TurnResult :=
  match ev with
  | .interrupt => ⟨false, false, msgs, none, true⟩
  | .line s =>
    let u := py_strip s
    if exit_words.contains (py_lower u) then
      ⟨true, false, msgs, none, false⟩
    else
      let withUser := msgs ++ [("user", u)]
      match api with
      | .exn m => ⟨false, true, withUser, some ("Error: " ++ m), false⟩
      | .ok r => ⟨false, true, withUser ++ [("assistant", r)], none, false⟩

/-- Iterating the chat loop over a list of (input line, reply) turns in
which every request succeeds. -/
def run_chat (msgs : List Message) : List (String × String) → List Message
  | [] => msgs
  | (u, r) :: rest => run_chat (chat_turn msgs (.line u) (.ok r)).messages rest

/-- The (user, assistant) message pairs a list of successful turns
appends, in turn order. -/
def pair_messages : List (String × String) → List Message
  | [] => []
  | (u, r) :: rest => ("user", py_strip u) :: ("assistant", r) :: pair_messages rest

/-- What `main` does with the parsed `--query` value (src/ag.py
lines 157-162).  argparse yields `none` when the flag is absent and the
raw string otherwise (`const` makes a bare `-q` yield the empty string).
The outer guard `if args.query:` is Python truthiness. -/
inductive MainAction
  | nothing
  | fatal (code : Nat) (msg : String)
  | runQuery (q : String)
deriving DecidableEq

/-- The `--query` dispatch of `main` (src/ag.py lines 157-162), modelled
faithfully: the block runs only when `args.query` is truthy; inside it the
dead check `if not query:` would exit fatally with a diagnostic. -/
def main_query_dispatch (query_arg : Option String) : MainAction :=
  if pyTruthy query_arg then
    let q := query_arg.getD ""
    if pyTruthy (some q) == false then
      .fatal 1 "Error: Please provide a query."
    else
      .runQuery q
  else
    .nothing

/-! ## Helper lemmas -/

/-- String append is associative. -/
theorem str_append_assoc (a b c : String) : a ++ b ++ c = a ++ (b ++ c) := by
  cases a with
  | mk la =>
    cases b with
    | mk lb =>
      cases c with
      | mk lc =>
        show String.mk (la ++ lb ++ lc) = String.mk (la ++ (lb ++ lc))
        rw [List.append_assoc]

/-- Each step of the accumulation loop appends exactly the text content of
the chunk: the skipped cases (no choices, `None` content, empty content)
contribute the empty string. -/
theorem stream_step_append (acc : String) (c : Chunk) :
    stream_step acc c = acc ++ chunk_text c := by
  cases c with
  | mk choices =>
    cases choices with
    | nil => exact (String.append_empty acc).symm
    | cons ch rest =>
      cases hc : ch.delta.content with
      | none => simp [stream_step, chunk_text, hc, String.append_empty]
      | some s =>
        by_cases hs : s = ""
        · subst hs; simp [stream_step, chunk_text, hc, String.append_empty]
        · simp [stream_step, chunk_text, hc, hs]

/-- The accumulation loop computes the concatenation of the chunk texts. -/
theorem foldl_stream_step (chunks : List Chunk) (acc : String) :
    chunks.foldl stream_step acc = acc ++ concat_all (chunks.map chunk_text) := by
  induction chunks generalizing acc with
  | nil => simp [concat_all, String.append_empty]
  | cons c cs ih =>
    simp [List.foldl, concat_all, stream_step_append, ih, str_append_assoc]

/-- Iterating successful turns appends the (user, assistant) pairs. -/
theorem run_chat_eq_append (turns : List (String × String)) :
    ∀ msgs : List Message,
      (∀ p ∈ turns, exit_words.contains (py_lower (py_strip p.1)) = false) →
      run_chat msgs turns = msgs ++ pair_messages turns := by
  induction turns with
  | nil => intro msgs _; simp [run_chat, pair_messages]
  | cons p rest ih =>
    intro msgs h
    obtain ⟨u, r⟩ := p
    have hu : exit_words.contains (py_lower (py_strip u)) = false := h (u, r) (by simp)
    have hrest : ∀ q ∈ rest, exit_words.contains (py_lower (py_strip q.1)) = false :=
      fun q hq => h q (List.mem_cons_of_mem _ hq)
    have hu' : ¬ py_lower (py_strip u) ∈ exit_words := by simpa using hu
    simp [run_chat, chat_turn, hu', pair_messages, ih _ hrest]

/-- A list of turns contributes two messages per turn. -/
theorem pair_messages_length (turns : List (String × String)) :
    (pair_messages turns).length = 2 * turns.length := by
  induction turns with
  | nil => rfl
  | cons p rest ih =>
    obtain ⟨u, r⟩ := p
    simp [pair_messages, ih]
    omega

/-! ## Claims -/

/-- C1 (counterexample): with empty context the prompt sent to the
inference client does NOT equal the raw query: at query `hi` the message
content is the fixed preamble followed by `hi`, not `hi` itself. -/
theorem query_empty_context_not_verbatim :
    query_mode_prompt "hi" (some "") false ≠ "hi" := by decide

/-- C1 (amended): in single-shot query mode with empty context the
context template is not applied — the prompt is the raw query with only
the fixed instructional preamble `professional_prompt` prepended, and
that is the single user message sent to the inference client. -/
theorem query_empty_context_preamble (query : String) (image : Bool) :
    query_mode_messages query (some "") image = [("user", professional_prompt ++ query)] := rfl

/-- C2 (code bug): when the OCR engine raises, the adapter prints a
diagnostic to the error stream and propagates no exception, but it
returns `None` rather than an empty string; `None` passes the
`contents != ""` guard of `query_mode`, so the prompt builder receives a
non-empty context and embeds the literal text `None` into the prompt. -/
theorem ocr_failure_not_empty_context :
    (ocr_run (.error "boom")).1 = none ∧
    (ocr_run (.error "boom")).2 = some "OCR 错误: boom" ∧
    (ocr_run (.error "boom")).1 ≠ some "" ∧
    query_mode_prompt "hi" (ocr_run (.error "boom")).1 true =
      professional_prompt ++ "This is ocr result of the image:\n\nNone\n\nQuestion:hi" :=
  ⟨rfl, rfl, by decide, rfl⟩

/-- C3 (code bug): supplying `--query` with an empty value is NOT fatal.
The guard `if args.query:` is Python truthiness, so for the empty string
the whole block — including the error branch that would print the
diagnostic and exit — is skipped and the invocation silently does
nothing; the fatal branch is unreachable for every possible value. -/
theorem empty_query_silently_ignored :
    main_query_dispatch (some "") = MainAction.nothing ∧
    ∀ qa : Option String,
      main_query_dispatch qa ≠ MainAction.fatal 1 "Error: Please provide a query." := by
  refine ⟨rfl, ?_⟩
  intro qa
  match qa with
  | none => simp [main_query_dispatch, pyTruthy]
  | some s =>
    by_cases h : s = ""
    · subst h; simp [main_query_dispatch, pyTruthy]
    · simp [main_query_dispatch, pyTruthy, h]

/-- C5: when the credential environment variable is absent,
`call_deepseek` terminates with exit status 1 and the diagnostic on the
error stream before any request is constructed, and this missing/empty
credential is the only fatal error path of the inference client. -/
theorem missing_credential_fatal (env : Option String) (msgs : List Message)
    (model : String) (stream : StreamFlag) :
    (env = none → call_deepseek env msgs model stream =
      .error (1, "Failed to find API key.")) ∧
    (∀ e, call_deepseek env msgs model stream = .error e →
      e = (1, "Failed to find API key.") ∧ pyTruthy env = false) := by
  constructor
  · intro he; subst he; rfl
  · intro e he
    cases hp : pyTruthy env with
    | true => simp [call_deepseek, get_client, hp] at he
    | false =>
      simp [call_deepseek, get_client, hp] at he
      exact ⟨he.symm, rfl⟩

/-- C5 witness: concrete instance with the environment variable absent. -/
theorem missing_credential_fatal_witness :
    call_deepseek none [] "deepseek-chat" .defaultTrue =
      .error (1, "Failed to find API key.") ∧
    pyTruthy none = false :=
  ⟨(missing_credential_fatal none [] "deepseek-chat" .defaultTrue).1 rfl,
   ((missing_credential_fatal none [] "deepseek-chat" .defaultTrue).2
      (1, "Failed to find API key.")
      ((missing_credential_fatal none [] "deepseek-chat" .defaultTrue).1 rfl)).2⟩

/-- C4 (counterexample): an exception during the sending phase does NOT
leave the history unchanged: on input `hello` with a failing request the
history afterwards differs from the history before the turn, because the
user message was appended before the request and is not removed. -/
theorem chat_exn_history_changed :
    (chat_turn init_messages (.line "hello") (.exn "boom")).messages ≠ init_messages := by
  decide

/-- C4 (amended): an exception during sending or rendering is caught,
reported to the error stream, and the loop returns to awaiting input;
the prior history is preserved as a prefix, but the user message appended
before the request remains in the history (the turn is not atomic). -/
theorem chat_exn_recovery (msgs : List Message) (s m : String)
    (h : exit_words.contains (py_lower (py_strip s)) = false) :
    (chat_turn msgs (.line s) (.exn m)).exited = false ∧
    (chat_turn msgs (.line s) (.exn m)).errReported = some ("Error: " ++ m) ∧
    (chat_turn msgs (.line s) (.exn m)).messages = msgs ++ [("user", py_strip s)] := by
  have h' : ¬ py_lower (py_strip s) ∈ exit_words := by simpa using h
  refine ⟨?_, ?_, ?_⟩ <;> simp [chat_turn, h']

/-- C4 witness: concrete failing turn on input `hello`. -/
theorem chat_exn_recovery_witness :
    (chat_turn init_messages (.line "hello") (.exn "boom")).exited = false ∧
    (chat_turn init_messages (.line "hello") (.exn "boom")).errReported =
      some ("Error: " ++ "boom") ∧
    (chat_turn init_messages (.line "hello") (.exn "boom")).messages =
      init_messages ++ [("user", py_strip "hello")] :=
  chat_exn_recovery init_messages "hello" "boom" (by decide)

/-- C6: for every non-empty streamed chunk sequence, the renderer
accumulates exactly the concatenation of the chunk text contents in
delivery order, and returns that accumulated plain text to its caller. -/
theorem stream_render_concat (chunks : List Chunk) (_h : chunks ≠ []) :
    print_response (.streamed chunks) .defaultTrue =
      some (concat_all (chunks.map chunk_text)) := by
  simp [print_response, stream_truthy, foldl_stream_step, String.empty_append]

/-- C6 witness: four concrete chunks (one with content, one with no
choices, one with `None` content, one with content) accumulate to the
concatenation `Hello`. -/
theorem stream_render_concat_witness :
    ([⟨[⟨⟨some "Hel"⟩⟩]⟩, ⟨[]⟩, ⟨[⟨⟨none⟩⟩]⟩, ⟨[⟨⟨some "lo"⟩⟩]⟩] : List Chunk) ≠ [] ∧
    print_response
      (.streamed [⟨[⟨⟨some "Hel"⟩⟩]⟩, ⟨[]⟩, ⟨[⟨⟨none⟩⟩]⟩, ⟨[⟨⟨some "lo"⟩⟩]⟩])
      .defaultTrue = some "Hello" :=
  ⟨by decide,
   (stream_render_concat [⟨[⟨⟨some "Hel"⟩⟩]⟩, ⟨[]⟩, ⟨[⟨⟨none⟩⟩]⟩, ⟨[⟨⟨some "lo"⟩⟩]⟩]
      (by decide)).trans (by rfl)⟩

/-- C7: after n successfully completed turns the history is exactly one
system message followed by the n (user, assistant) pairs in turn order,
so its length is 2n + 1 (7 for three turns). -/
theorem chat_history_shape (turns : List (String × String))
    (h : ∀ p ∈ turns, exit_words.contains (py_lower (py_strip p.1)) = false) :
    run_chat init_messages turns = ("system", system_prompt) :: pair_messages turns ∧
    (run_chat init_messages turns).length = 2 * turns.length + 1 := by
  have he := run_chat_eq_append turns init_messages h
  constructor
  · simpa [init_messages] using he
  · rw [he]
    simp [init_messages, pair_messages_length]

/-- C7 witness: three concrete successful turns yield the system message
followed by three (user, assistant) pairs — a history of length 7. -/
theorem chat_history_shape_witness :
    run_chat init_messages [("a", "x"), ("b", "y"), ("c", "z")] =
      ("system", system_prompt) :: pair_messages [("a", "x"), ("b", "y"), ("c", "z")] ∧
    (run_chat init_messages [("a", "x"), ("b", "y"), ("c", "z")]).length = 7 :=
  ⟨(chat_history_shape [("a", "x"), ("b", "y"), ("c", "z")] (by decide)).1,
   (chat_history_shape [("a", "x"), ("b", "y"), ("c", "z")] (by decide)).2.trans (by rfl)⟩

/-- C8: a chat turn reaches the exit state exactly when the (stripped)
user input lowercases to one of the three exit keywords, in which case
the loop terminates without sending a request and with the history
untouched; an interrupt while awaiting input returns to the prompt with
the hint and without exiting. -/
theorem chat_exit_characterization (msgs : List Message) (s : String) (api : ApiOutcome) :
    ((chat_turn msgs (.line s) api).exited = true ↔
      exit_words.contains (py_lower (py_strip s)) = true) ∧
    (exit_words.contains (py_lower (py_strip s)) = true →
      chat_turn msgs (.line s) api = ⟨true, false, msgs, none, false⟩) ∧
    chat_turn msgs .interrupt api = ⟨false, false, msgs, none, true⟩ := by
  refine ⟨?_, ?_, rfl⟩
  · cases hc : exit_words.contains (py_lower (py_strip s)) with
    | true =>
      have hc' : py_lower (py_strip s) ∈ exit_words := by simpa using hc
      simp [chat_turn, hc']
    | false =>
      have hc' : ¬ py_lower (py_strip s) ∈ exit_words := by simpa using hc
      cases api <;> simp [chat_turn, hc']
  · intro hc
    have hc' : py_lower (py_strip s) ∈ exit_words := by simpa using hc
    simp [chat_turn, hc']

/-- C8 witness: input ` EXIT ` exits without a request and with the
history untouched; an interrupt returns to the prompt with the hint. -/
theorem chat_exit_characterization_witness :
    ((chat_turn init_messages (.line " EXIT ") (.ok "x")).exited = true ↔
      exit_words.contains (py_lower (py_strip " EXIT ")) = true) ∧
    chat_turn init_messages (.line " EXIT ") (.ok "x") =
      ⟨true, false, init_messages, none, false⟩ ∧
    chat_turn init_messages .interrupt (.ok "x") =
      ⟨false, false, init_messages, none, true⟩ :=
  ⟨(chat_exit_characterization init_messages " EXIT " (.ok "x")).1,
   (chat_exit_characterization init_messages " EXIT " (.ok "x")).2.1 (by decide),
   (chat_exit_characterization init_messages " EXIT " (.ok "x")).2.2⟩

/-- C9: with non-empty context the single-shot prompt contains the
literal phrase `Please answer the question based on this text` followed
by the content and the question when the context is piped text, and
contains the literal phrase `This is ocr result of the image` when the
context came from image-mode OCR. -/
theorem nonempty_context_templates (q c : String) (h : c ≠ "") :
    (∃ a b, query_mode_prompt q (some c) false =
      a ++ ("Please answer the question based on this text" ++
        (b ++ (c ++ ("\n\nQuestion:" ++ q))))) ∧
    (∃ a b, query_mode_prompt q (some c) true =
      a ++ ("This is ocr result of the image" ++ b)) := by
  have hbeq : (some c == some "") = false := by simp [h]
  have h1 : ("Please answer the question based on this text:\n\n" : String) =
      "Please answer the question based on this text" ++ ":\n\n" := rfl
  have h2 : ("This is ocr result of the image:\n\n" : String) =
      "This is ocr result of the image" ++ ":\n\n" := rfl
  constructor
  · refine ⟨professional_prompt, ":\n\n", ?_⟩
    simp only [query_mode_prompt, hbeq, Bool.false_eq_true, if_false, pyStr]
    rw [h1]
    simp only [str_append_assoc]
  · refine ⟨professional_prompt, ":\n\n" ++ (c ++ ("\n\nQuestion:" ++ q)), ?_⟩
    simp only [query_mode_prompt, hbeq, Bool.false_eq_true, if_false, pyStr]
    rw [h2]
    simp only [if_true, str_append_assoc]

/-- C9 witness: concrete query `hi` and context `ctx`. -/
theorem nonempty_context_templates_witness :
    (∃ a b, query_mode_prompt "hi" (some "ctx") false =
      a ++ ("Please answer the question based on this text" ++
        (b ++ ("ctx" ++ ("\n\nQuestion:" ++ "hi"))))) ∧
    (∃ a b, query_mode_prompt "hi" (some "ctx") true =
      a ++ ("This is ocr result of the image" ++ b)) :=
  nonempty_context_templates "hi" "ctx" (by decide)

/-- C10: the `--stream` value is only tested for truthiness: omitting the
flag yields the default `True`, any non-empty argument string (including
`false` and `0`) keeps the renderer on the streaming path, and only the
explicitly empty string argument selects the non-streaming path. -/
theorem stream_flag_truthiness (s : String) (h : s ≠ "") :
    stream_truthy .defaultTrue = true ∧
    stream_truthy (.given s) = true ∧
    stream_truthy (.given "false") = true ∧
    stream_truthy (.given "0") = true ∧
    stream_truthy (.given "") = false ∧
    (∀ r, print_response r (.given s) = print_response r .defaultTrue) ∧
    (∀ content, print_response (.single content) (.given "") = some content) ∧
    (∀ chunks, print_response (.streamed chunks) (.given "") = none) := by
  refine ⟨rfl, ?_, rfl, rfl, rfl, ?_, fun _ => rfl, fun _ => rfl⟩
  · simp [stream_truthy, h]
  · intro r
    simp [print_response, stream_truthy, h]

/-- C10 witness: the argument string `false` still selects streaming. -/
theorem stream_flag_truthiness_witness :
    stream_truthy (.given "false") = true ∧
    stream_truthy (.given "") = false ∧
    print_response (.streamed []) (.given "false") =
      print_response (.streamed []) .defaultTrue :=
  ⟨(stream_flag_truthiness "false" (by decide)).2.2.1,
   (stream_flag_truthiness "false" (by decide)).2.2.2.2.1,
   (stream_flag_truthiness "false" (by decide)).2.2.2.2.2.1 (.streamed [])⟩
